import Mathlib

/-!
Shallow embedding of the print-preview sheet-layout and 3D-stack synthesis
engine (Vue single-file components: the cascade variant in src/src/App.vue,
the orientation-aware grid variant, and the CSS-only variant).

Conventions of the embedding:
* JS numbers holding page/copy counts are modelled as Int.
* JS real-division arithmetic that is immediately floored or ceiled
  (Math.ceil(x / y), Math.floor(x / y)) is modelled by the equivalent
  integer formulas using Int euclidean division; bridging lemmas prove the
  formulas equal the mathematical floor and ceil of the rational quotient.
* Geometry quantities (aspect ratios, plane sizes, positions, spacings) are
  modelled as Rat.  Texture rotations are modelled in degrees as Rat: the
  source stores radians, with Math.PI mapped here to 180 and Math.PI / 2
  to 90.
* The JS remainder operator has the sign of the dividend, which is Int.tmod.
  The one divergence, remainder by zero (NaN in JS, identity in Lean), is
  unreachable: the loop that evaluates the remainder runs zero iterations
  whenever sheetsPerCopy is zero.
-/

/-- Duplex mode enum, source type DuplexMode = simplex | duplex. -/
inductive DuplexMode where
  | simplex
  | duplex
deriving DecidableEq

/-- Flip edge enum, source type FlipMode = long | short. -/
inductive FlipMode where
  | long
  | short
deriving DecidableEq

/-- Orientation enum of the grid variant, OrientationMode = portrait | landscape. -/
inductive OrientationMode where
  | portrait
  | landscape
deriving DecidableEq

/-- One decoded page: source type PageRender with url, width, height. -/
structure PageRender where
  url : String
  width : Rat
  height : Rat
deriving DecidableEq

/-- Computed ref isDuplex: duplex.value === "duplex". -/
def isDuplex : DuplexMode → Bool
  | DuplexMode.duplex => true
  | DuplexMode.simplex => false

/-- Computed ref isLandscape of the grid variant: orientation.value === "landscape". -/
def isLandscape : OrientationMode → Bool
  | OrientationMode.landscape => true
  | OrientationMode.portrait => false

/-- Integer form of Math.ceil(pages / 2): for every integer p this euclidean
division formula equals the ceiling of p / 2 (lemma ceilHalf_eq_ceil below). -/
def ceilHalf (p : Int) : Int := (p + 1) / 2

/-- Computed ref sheetsPerCopy: isDuplex ? Math.ceil(pages / 2) : pages. -/
def sheetsPerCopy (pages : Int) (d : DuplexMode) : Int :=
  if isDuplex d then ceilHalf pages else pages

/-- Computed ref totalSheets: sheetsPerCopy * copies. -/
def totalSheets (pages copies : Int) (d : DuplexMode) : Int :=
  sheetsPerCopy pages d * copies

/-- Computed ref totalSides: pages * copies. -/
def totalSides (pages copies : Int) : Int := pages * copies

/-- Render cap of the cascade variant (const maxRenderedSheets = 24). -/
def maxRenderedSheets : Int := 24

/-- Render cap of the grid variant (const maxRenderedSheets = 100). -/
def maxRenderedSheetsGrid : Int := 100

/-- Computed ref renderedSheets: Math.min(totalSheets, maxRenderedSheets),
with the cap passed as a parameter because the variants use 24 and 100. -/
def renderedSheets (pages copies : Int) (d : DuplexMode) (maxR : Int) : Int :=
  min (totalSheets pages copies d) maxR

/-- Computed ref hiddenSheets: Math.max(totalSheets - renderedSheets, 0). -/
def hiddenSheets (pages copies : Int) (d : DuplexMode) (maxR : Int) : Int :=
  max (totalSheets pages copies d - renderedSheets pages copies d maxR) 0

/-- Local const pageCount of buildStack: Math.max(pages.value, 1). -/
def buildPageCount (pages : Int) : Int := max pages 1

/-- Loop-local const sheetIndex of buildStack: i % sheetsPerCopy.value, with
the JS remainder (sign of the dividend) modelled by Int.tmod. -/
def sheetLocalIndex (pages : Int) (d : DuplexMode) (i : Int) : Int :=
  Int.tmod i (sheetsPerCopy pages d)

/-- Loop-local const frontPage: isDuplex ? sheetIndex * 2 : sheetIndex. -/
def frontPageOf (pages : Int) (d : DuplexMode) (i : Int) : Int :=
  if isDuplex d then sheetLocalIndex pages d i * 2 else sheetLocalIndex pages d i

/-- Loop-local const backPage: isDuplex ? sheetIndex * 2 + 1 : null. -/
def backPageOf (pages : Int) (d : DuplexMode) (i : Int) : Option Int :=
  if isDuplex d then some (sheetLocalIndex pages d i * 2 + 1) else none

/-- Loop-local const frontIndex: frontPage < pageCount ? frontPage : null. -/
def frontIndexOf (pages : Int) (d : DuplexMode) (i : Int) : Option Int :=
  if frontPageOf pages d i < buildPageCount pages then some (frontPageOf pages d i) else none

/-- Loop-local const backIndex:
backPage !== null && backPage < pageCount ? backPage : null. -/
def backIndexOf (pages : Int) (d : DuplexMode) (i : Int) : Option Int :=
  match backPageOf pages d i with
  | none => none
  | some bp => if bp < buildPageCount pages then some bp else none

/-- Indexing expression pageRenders.value[idx]?.url ?? null, where a null
index or an out-of-bounds index yields null. -/
def urlAt (renders : List PageRender) : Option Int → Option String
  | none => none
  | some i => if i < 0 then none else (renders[i.toNat]?).map PageRender.url

/-- Bridging lemma for Math.ceil of an integer quotient: for a positive
divisor b the integer formula (a + b - 1) / b equals the ceiling of the
rational quotient a / b. -/
theorem ediv_formula_eq_ceil (a b : Int) (hb : 0 < b) :
    (a + b - 1) / b = Int.ceil ((a : Rat) / (b : Rat)) := by
  have hbq : (0 : Rat) < (b : Rat) := by exact_mod_cast hb
  have hdm := Int.ediv_add_emod (a + b - 1) b
  have hr0 : 0 ≤ (a + b - 1) % b := Int.emod_nonneg _ (ne_of_gt hb)
  have hrb : (a + b - 1) % b < b := Int.emod_lt_of_pos _ hb
  have e2 : ((a + b - 1) / b - 1) * b = b * ((a + b - 1) / b) - b := by ring
  have e3 : ((a + b - 1) / b) * b = b * ((a + b - 1) / b) := by ring
  have h1 : ((a + b - 1) / b - 1) * b < a := by linarith
  have h2 : a ≤ ((a + b - 1) / b) * b := by linarith
  symm
  rw [Int.ceil_eq_iff]
  constructor
  · rw [show ((((a + b - 1) / b : Int) : Rat) - 1) = (((a + b - 1) / b - 1 : Int) : Rat) by
      push_cast
      ring]
    rw [lt_div_iff₀ hbq]
    exact_mod_cast h1
  · rw [div_le_iff₀ hbq]
    exact_mod_cast h2

/-- Bridging lemma for Math.floor of an integer quotient: for a positive
divisor b euclidean division a / b equals the floor of the rational
quotient a / b. -/
theorem ediv_eq_floor (a b : Int) (hb : 0 < b) :
    a / b = Int.floor ((a : Rat) / (b : Rat)) := by
  have hbq : (0 : Rat) < (b : Rat) := by exact_mod_cast hb
  have hdm := Int.ediv_add_emod a b
  have hr0 : 0 ≤ a % b := Int.emod_nonneg _ (ne_of_gt hb)
  have hrb : a % b < b := Int.emod_lt_of_pos _ hb
  have e2 : (a / b) * b = b * (a / b) := by ring
  have e3 : (a / b + 1) * b = b * (a / b) + b := by ring
  have h1 : (a / b) * b ≤ a := by linarith
  have h2 : a < (a / b + 1) * b := by linarith
  symm
  rw [Int.floor_eq_iff]
  constructor
  · rw [le_div_iff₀ hbq]
    exact_mod_cast h1
  · rw [show (((a / b : Int) : Rat) + 1) = (((a / b + 1 : Int) : Rat)) by push_cast; ring]
    rw [div_lt_iff₀ hbq]
    exact_mod_cast h2

/-- Instance of the ceiling bridge at divisor 2: ceilHalf p is the ceiling
of p / 2, hence a faithful model of Math.ceil(pages / 2). -/
theorem ceilHalf_eq_ceil (p : Int) : ceilHalf p = Int.ceil ((p : Rat) / 2) := by
  have h := ediv_formula_eq_ceil p 2 (by norm_num)
  have h2 : p + 2 - 1 = p + 1 := by ring
  rw [ceilHalf]
  rw [h2] at h
  simpa using h

/-- Texture model: createTexture loads the url and sets texture.rotation
(degrees here, Math.PI mapped to 180). -/
structure TextureModel where
  url : String
  rotationDeg : Rat
deriving DecidableEq

/-- Material model with the placement-relevant fields of createPageMaterial:
color is 0xffffff with a url and 0xf1f5f9 without, and map is the created
texture with a url and null without. -/
structure MaterialModel where
  color : Nat
  map : Option TextureModel
deriving DecidableEq

/-- Source function createTexture. -/
def createTexture (url : String) (rotationDeg : Rat) : TextureModel :=
  { url := url, rotationDeg := rotationDeg }

/-- Source function createPageMaterial. -/
def createPageMaterial (url : Option String) (rotationDeg : Rat) : MaterialModel :=
  { color := if url.isSome then 0xffffff else 0xf1f5f9
  , map := url.map (fun u => createTexture u rotationDeg) }

/-- Fallback page dimensions used when no page images are loaded yet:
url "", width 1, height 1.414. -/
def defaultPageDims : PageRender := { url := "", width := 1, height := 707/500 }

/-- Fixed plane height 2.6 shared by both 3D variants. -/
def planeHeight : Rat := 13/5

/-- Cascade-variant sheet placement: the data buildStack in App.vue puts on
one sheet group (front and back mesh materials, plane size, mesh depth
offsets, group y offset, group pitch in degrees). -/
structure SheetPlacement where
  front : MaterialModel
  back : MaterialModel
  width : Rat
  height : Rat
  frontZ : Rat
  backZ : Rat
  posY : Rat
  tiltDeg : Rat
deriving DecidableEq

/-- Model of buildStack of the cascade variant (App.vue, cap 24).  The
pageCount clamp Math.max(pages, 1) lives inside frontIndexOf and
backIndexOf via buildPageCount. -/
def buildStack (pages copies : Int) (d : DuplexMode) (fl : FlipMode)
    (renders : List PageRender) : List SheetPlacement :=
  let base := renders.headD defaultPageDims
  let planeWidth := planeHeight * (base.width / base.height)
  let sheetDepth : Rat := 3/100
  let renderCount := min (totalSheets pages copies d) maxRenderedSheets
  (List.range renderCount.toNat).map (fun (n : Nat) =>
    let i : Int := (n : Int)
    let frontUrl := urlAt renders (frontIndexOf pages d i)
    let backUrl := urlAt renders (backIndexOf pages d i)
    let backRotation : Rat := if fl = FlipMode.short then 180 else 0
    { front := createPageMaterial frontUrl 0
      back := createPageMaterial backUrl backRotation
      width := planeWidth
      height := planeHeight
      frontZ := (i : Rat) * sheetDepth
      backZ := (i : Rat) * sheetDepth - 1/1000
      posY := -(i : Rat) * (15/1000)
      tiltDeg := 6 + (i : Rat) * (2/10) })

/-- Source test isSourceLandscape: aspect >= 1. -/
def isSourceLandscape (aspect : Rat) : Bool := decide (1 ≤ aspect)

/-- Grid-variant targetAspect: landscape takes max(aspect, 1/aspect),
portrait takes min(aspect, 1/aspect). -/
def targetAspectOf (o : OrientationMode) (aspect : Rat) : Rat :=
  if isLandscape o then max aspect (1 / aspect) else min aspect (1 / aspect)

/-- Grid-variant effectiveFlip: in landscape the selection is complemented
(long becomes short, short becomes long), otherwise it is kept. -/
def effectiveFlip (o : OrientationMode) (f : FlipMode) : FlipMode :=
  if isLandscape o then
    (if f = FlipMode.long then FlipMode.short else FlipMode.long)
  else f

/-- Grid-variant orientationRotation: 0 when isLandscape equals
isSourceLandscape, else 90 degrees (Math.PI / 2 in the source). -/
def orientationRotationDeg (o : OrientationMode) (srcLandscape : Bool) : Rat :=
  if isLandscape o = srcLandscape then 0 else 90

/-- Grid-variant backRotation:
(effectiveFlip === "short" ? Math.PI : 0) + orientationRotation. -/
def backRotationDeg (o : OrientationMode) (f : FlipMode) (srcLandscape : Bool) : Rat :=
  (if effectiveFlip o f = FlipMode.short then 180 else 0)
    + orientationRotationDeg o srcLandscape

/-- Grid-variant renderCount: Math.min(totalSheets, maxRenderedSheets)
with the grid cap of 100. -/
def renderCountGrid (pages copies : Int) (d : DuplexMode) : Int :=
  min (totalSheets pages copies d) maxRenderedSheetsGrid

/-- Grid column count: Math.min(10, Math.max(1, renderCount)). -/
def gridColumns (renderCount : Int) : Int := min 10 (max 1 renderCount)

/-- Grid row count Math.ceil(renderCount / columns), as the equivalent
euclidean-division formula (bridging lemma ediv_formula_eq_ceil). -/
def gridRows (renderCount : Int) : Int :=
  (renderCount + gridColumns renderCount - 1) / gridColumns renderCount

/-- Column of sheet i: i % columns with the JS remainder. -/
def gridCol (i columns : Int) : Int := Int.tmod i columns

/-- Row of sheet i: Math.floor(i / columns); euclidean division equals the
floor for the always-positive column count (lemma ediv_eq_floor). -/
def gridRow (i columns : Int) : Int := i / columns

/-- Sheet x position: col * spacingX - totalWidth / 2 with
totalWidth = (columns - 1) * spacingX. -/
def gridX (spacingX : Rat) (columns : Int) (c : Int) : Rat :=
  (c : Rat) * spacingX - ((columns - 1 : Int) : Rat) * spacingX / 2

/-- Sheet z position: totalDepth / 2 - row * spacingZ with
totalDepth = (rows - 1) * spacingZ. -/
def gridZ (spacingZ : Rat) (rows : Int) (r : Int) : Rat :=
  ((rows - 1 : Int) : Rat) * spacingZ / 2 - (r : Rat) * spacingZ

/-- Aspect ratio of the first available page: base.width / base.height of
pageDimensions[0], with the default fallback dimensions. -/
def aspectOf (renders : List PageRender) : Rat :=
  (renders.headD defaultPageDims).width / (renders.headD defaultPageDims).height

/-- Grid plane width: planeHeight * targetAspect. -/
def planeWidthGrid (o : OrientationMode) (renders : List PageRender) : Rat :=
  planeHeight * targetAspectOf o (aspectOf renders)

/-- Grid x spacing: planeWidth * 1.25. -/
def spacingXGrid (o : OrientationMode) (renders : List PageRender) : Rat :=
  planeWidthGrid o renders * (5/4)

/-- Grid z spacing: planeHeight * 1.5. -/
def spacingZGrid : Rat := planeHeight * (3/2)

/-- Settings tuple of the orientation-aware grid variant. -/
structure GridSettings where
  pages : Int
  copies : Int
  duplex : DuplexMode
  flip : FlipMode
  orientation : OrientationMode
deriving DecidableEq

/-- Grid-variant sheet placement: front and back materials, plane size,
group position, fixed backward pitch, and the numeric label sprite text. -/
structure GridPlacement where
  front : MaterialModel
  back : MaterialModel
  width : Rat
  height : Rat
  posX : Rat
  posY : Rat
  posZ : Rat
  tiltDeg : Rat
  label : String
deriving DecidableEq

/-- Model of buildStack of the orientation-aware grid variant (cap 100). -/
def buildStackGrid (s : GridSettings) (renders : List PageRender) :
    List GridPlacement :=
  let srcLandscape := isSourceLandscape (aspectOf renders)
  let planeWidth := planeWidthGrid s.orientation renders
  let renderCount := renderCountGrid s.pages s.copies s.duplex
  let spacingX := spacingXGrid s.orientation renders
  let spacingZ := spacingZGrid
  let columns := gridColumns renderCount
  let rows := gridRows renderCount
  (List.range renderCount.toNat).map (fun (n : Nat) =>
    let i : Int := (n : Int)
    let frontUrl := urlAt renders (frontIndexOf s.pages s.duplex i)
    let backUrl := urlAt renders (backIndexOf s.pages s.duplex i)
    { front := createPageMaterial frontUrl (orientationRotationDeg s.orientation srcLandscape)
      back := createPageMaterial backUrl (backRotationDeg s.orientation s.flip srcLandscape)
      width := planeWidth
      height := planeHeight
      posX := gridX spacingX columns (gridCol i columns)
      posY := 0
      posZ := gridZ spacingZ rows (gridRow i columns)
      tiltDeg := -18
      label := toString (i + 1) })

/-- Prefix test on character lists. -/
def listStarts : List Char → List Char → Bool
  | _, [] => true
  | [], _ :: _ => false
  | c :: cs, d :: ds => c == d && listStarts cs ds

/-- Model of String.startsWith as used on the MIME type string. -/
def strStarts (s p : String) : Bool := listStarts s.data p.data

/-- Uploaded file descriptor: name and MIME type. -/
structure FileDesc where
  name : String
  type : String
deriving DecidableEq

/-- Reactive state touched by loadFile (the refs of the component that the
load path reads or writes, plus the print settings). -/
structure AppState where
  file : Option FileDesc
  isLoading : Bool
  loadError : Option String
  maxPageCount : Option Int
  pageRenders : List PageRender
  pages : Int
  copies : Int
  duplex : DuplexMode
  flip : FlipMode
  orientation : OrientationMode
deriving DecidableEq

/-- Outcome of the external PDF decode (pdfjs): document page count and the
rendered pages, or a thrown error message. -/
inductive PdfOutcome where
  | ok (numPages : Int) (renders : List PageRender)
  | err (msg : String)
deriving DecidableEq

/-- Outcome of the external image decode: the single rendered page, or a
thrown error message. -/
inductive ImageOutcome where
  | ok (render : PageRender)
  | err (msg : String)
deriving DecidableEq

/-- Model of loadFile: sets file, isLoading, clears loadError and
pageRenders, then branches on the MIME type into loadPdf, loadImage, or the
unsupported-format rejection; thrown errors land in loadError and the
finally block clears isLoading.  The decode outcomes stand for the external
Page Source Adapter. -/
def loadFile (pdfOut : PdfOutcome) (imgOut : ImageOutcome) (s : AppState)
    (f : FileDesc) : AppState :=
  let s1 : AppState :=
    { s with file := some f, isLoading := true, loadError := none, pageRenders := [] }
  let s2 : AppState :=
    if f.type = "application/pdf" then
      match pdfOut with
      | PdfOutcome.ok numPages renders =>
          { s1 with maxPageCount := some numPages
                  , pages := min numPages 60
                  , pageRenders := renders }
      | PdfOutcome.err m => { s1 with loadError := some m }
    else if strStarts f.type "image/" then
      match imgOut with
      | ImageOutcome.ok r =>
          { s1 with pageRenders := [r], maxPageCount := some 1, pages := 1 }
      | ImageOutcome.err m => { s1 with loadError := some m }
    else
      { s1 with loadError := some "Unsupported file format." }
  { s2 with isLoading := false }

/-- Resource-lifecycle state: next fresh resource id, the module-level
disposable array (allocated and not yet disposed), and logs of every
allocation and every dispose call. -/
structure ResState where
  next : Nat
  live : List Nat
  allocLog : List Nat
  disposedLog : List Nat
deriving DecidableEq

/-- Allocation of one renderable resource (texture, material or geometry):
a push onto the disposable array, recorded with a fresh identifier. -/
def allocOne (st : ResState) : ResState :=
  { next := st.next + 1
  , live := st.live ++ [st.next]
  , allocLog := st.allocLog ++ [st.next]
  , disposedLog := st.disposedLog }

/-- Model of disposeStack: item.dispose() runs on every entry of the
disposable array and the array is cleared. -/
def disposeStackR (st : ResState) : ResState :=
  { st with live := [], disposedLog := st.disposedLog ++ st.live }

/-- k successive resource allocations. -/
def allocMany : Nat → ResState → ResState
  | 0, st => st
  | Nat.succ n, st => allocMany n (allocOne st)

/-- Model of one buildStack call that allocates k resources: disposeStack
runs first, then the allocations of the rebuild loop. -/
def buildStackR (k : Nat) (st : ResState) : ResState := allocMany k (disposeStackR st)

/-- Initial resource state: nothing allocated. -/
def initR : ResState := { next := 0, live := [], allocLog := [], disposedLog := [] }

/-- A sequence of rebuilds with the given allocation counts. -/
def runRebuilds (ks : List Nat) (st : ResState) : ResState :=
  ks.foldl (fun acc k => buildStackR k acc) st

/-- Model of the onBeforeUnmount teardown path, which calls disposeStack. -/
def teardownR (st : ResState) : ResState := disposeStackR st

/-- Positivity of sheetsPerCopy for at least one page. -/
theorem sheetsPerCopy_pos (pages : Int) (d : DuplexMode) (hp : 1 ≤ pages) :
    1 ≤ sheetsPerCopy pages d := by
  cases d <;> simp [sheetsPerCopy, isDuplex, ceilHalf] <;> omega

/-- Positivity of totalSheets for at least one page and one copy. -/
theorem totalSheets_pos (pages copies : Int) (d : DuplexMode)
    (hp : 1 ≤ pages) (hc : 1 ≤ copies) : 1 ≤ totalSheets pages copies d := by
  have h := sheetsPerCopy_pos pages d hp
  have : (1 : Int) * 1 ≤ sheetsPerCopy pages d * copies := by
    apply mul_le_mul h hc (by norm_num) (le_trans zero_le_one h)
  simpa [totalSheets] using this

/-- C2: for every pageCount at least 1, sheetsPerCopy is the ceiling of
pageCount / 2 in duplex mode and pageCount itself in simplex mode. -/
theorem claim_c2_sheetsPerCopy (pages : Int) (_hp : 1 ≤ pages) :
    sheetsPerCopy pages DuplexMode.duplex = Int.ceil ((pages : Rat) / 2)
    ∧ sheetsPerCopy pages DuplexMode.simplex = pages := by
  constructor
  · simpa [sheetsPerCopy, isDuplex] using ceilHalf_eq_ceil pages
  · rfl

/-- Witness for C2 at pageCount 7. -/
theorem claim_c2_witness :
    (1 : Int) ≤ 7
    ∧ (sheetsPerCopy 7 DuplexMode.duplex = Int.ceil ((7 : Rat) / 2)
        ∧ sheetsPerCopy 7 DuplexMode.simplex = 7) :=
  ⟨by decide, claim_c2_sheetsPerCopy 7 (by decide)⟩

/-- C3: for every pageCount and copies at least 1, totalSides is
pageCount times copies regardless of duplex mode, and totalSheets is
sheetsPerCopy times copies. -/
theorem claim_c3_totals (pages copies : Int) (d : DuplexMode)
    (_hp : 1 ≤ pages) (_hc : 1 ≤ copies) :
    totalSides pages copies = pages * copies
    ∧ totalSheets pages copies d = sheetsPerCopy pages d * copies :=
  ⟨rfl, rfl⟩

/-- Witness for C3 at pageCount 5, copies 2, simplex. -/
theorem claim_c3_witness :
    ((1 : Int) ≤ 5 ∧ (1 : Int) ≤ 2)
    ∧ (totalSides 5 2 = 5 * 2
        ∧ totalSheets 5 2 DuplexMode.simplex = sheetsPerCopy 5 DuplexMode.simplex * 2) :=
  ⟨by decide, claim_c3_totals 5 2 DuplexMode.simplex (by decide) (by decide)⟩

/-- C1: for every sheet index i in the range of totalSheets, the per-sheet
mapping of buildStack satisfies the specified formulas: the copy-local
sheet index is i mod sheetsPerCopy, the duplex front and back page indices
are twice the local index and twice plus one, simplex uses the local index
with a null back page, and any page index at or beyond pageCount yields a
null index, whose material carries no image. -/
theorem claim_c1_mapping (pages copies : Int) (d : DuplexMode) (i : Int)
    (renders : List PageRender) (rotF rotB : Rat)
    (hp : 1 ≤ pages) (_hc : 1 ≤ copies) (hi0 : 0 ≤ i)
    (_hil : i < totalSheets pages copies d) :
    sheetLocalIndex pages d i = i % sheetsPerCopy pages d
    ∧ frontPageOf pages d i =
        (if isDuplex d then sheetLocalIndex pages d i * 2 else sheetLocalIndex pages d i)
    ∧ backPageOf pages d i =
        (if isDuplex d then some (sheetLocalIndex pages d i * 2 + 1) else none)
    ∧ (pages ≤ frontPageOf pages d i → frontIndexOf pages d i = none)
    ∧ (isDuplex d = true →
        pages ≤ sheetLocalIndex pages d i * 2 + 1 → backIndexOf pages d i = none)
    ∧ (isDuplex d = false → backIndexOf pages d i = none)
    ∧ (frontIndexOf pages d i = none →
        (createPageMaterial (urlAt renders (frontIndexOf pages d i)) rotF).map = none)
    ∧ (backIndexOf pages d i = none →
        (createPageMaterial (urlAt renders (backIndexOf pages d i)) rotB).map = none) := by
  have hspc : 1 ≤ sheetsPerCopy pages d := sheetsPerCopy_pos pages d hp
  have hclamp : buildPageCount pages = pages := max_eq_left hp
  refine ⟨?_, rfl, rfl, ?_, ?_, ?_, ?_, ?_⟩
  · exact Int.tmod_eq_emod hi0 (by omega)
  · intro h
    simp [frontIndexOf, hclamp, not_lt.mpr h]
  · intro hd h
    simp [backIndexOf, backPageOf, hd, hclamp, not_lt.mpr h]
  · intro hd
    simp [backIndexOf, backPageOf, hd]
  · intro h
    simp [h, urlAt, createPageMaterial]
  · intro h
    simp [h, urlAt, createPageMaterial]

/-- Witness for C1 at pageCount 7, copies 1, duplex, sheet 3: the back page
index 7 is out of range and maps to a blank face. -/
theorem claim_c1_witness :
    ((1 : Int) ≤ 7 ∧ (1 : Int) ≤ 1 ∧ (0 : Int) ≤ 3
      ∧ (3 : Int) < totalSheets 7 1 DuplexMode.duplex)
    ∧ (sheetLocalIndex 7 DuplexMode.duplex 3 = 3 % sheetsPerCopy 7 DuplexMode.duplex
    ∧ frontPageOf 7 DuplexMode.duplex 3 =
        (if isDuplex DuplexMode.duplex then sheetLocalIndex 7 DuplexMode.duplex 3 * 2
         else sheetLocalIndex 7 DuplexMode.duplex 3)
    ∧ backPageOf 7 DuplexMode.duplex 3 =
        (if isDuplex DuplexMode.duplex then some (sheetLocalIndex 7 DuplexMode.duplex 3 * 2 + 1)
         else none)
    ∧ ((7 : Int) ≤ frontPageOf 7 DuplexMode.duplex 3 →
        frontIndexOf 7 DuplexMode.duplex 3 = none)
    ∧ (isDuplex DuplexMode.duplex = true →
        (7 : Int) ≤ sheetLocalIndex 7 DuplexMode.duplex 3 * 2 + 1 →
        backIndexOf 7 DuplexMode.duplex 3 = none)
    ∧ (isDuplex DuplexMode.duplex = false → backIndexOf 7 DuplexMode.duplex 3 = none)
    ∧ (frontIndexOf 7 DuplexMode.duplex 3 = none →
        (createPageMaterial (urlAt [] (frontIndexOf 7 DuplexMode.duplex 3)) 0).map = none)
    ∧ (backIndexOf 7 DuplexMode.duplex 3 = none →
        (createPageMaterial (urlAt [] (backIndexOf 7 DuplexMode.duplex 3)) 180).map = none)) :=
  ⟨by decide,
   claim_c1_mapping 7 1 DuplexMode.duplex 3 [] 0 180
     (by decide) (by decide) (by decide) (by decide)⟩

/-- C4: under the data-model constraints on pageCount and copies, the number
of placements built by each variant equals min(totalSheets, cap) with caps
24 and 100, the hidden-sheet count equals max(totalSheets - cap, 0), built
plus hidden equals totalSheets, and no placement beyond the cap exists. -/
theorem claim_c4_render_cap (pages copies : Int) (d : DuplexMode) (fl : FlipMode)
    (o : OrientationMode) (renders : List PageRender)
    (hp : 1 ≤ pages) (hc : 1 ≤ copies) :
    ((buildStack pages copies d fl renders).length : Int)
        = min (totalSheets pages copies d) 24
    ∧ ((buildStackGrid ⟨pages, copies, d, fl, o⟩ renders).length : Int)
        = min (totalSheets pages copies d) 100
    ∧ hiddenSheets pages copies d 24 = max (totalSheets pages copies d - 24) 0
    ∧ hiddenSheets pages copies d 100 = max (totalSheets pages copies d - 100) 0
    ∧ ((buildStack pages copies d fl renders).length : Int)
        + hiddenSheets pages copies d 24 = totalSheets pages copies d
    ∧ ((buildStackGrid ⟨pages, copies, d, fl, o⟩ renders).length : Int)
        + hiddenSheets pages copies d 100 = totalSheets pages copies d
    ∧ (buildStack pages copies d fl renders).length ≤ 24
    ∧ (buildStackGrid ⟨pages, copies, d, fl, o⟩ renders).length ≤ 100 := by
  have hts : 1 ≤ totalSheets pages copies d := totalSheets_pos pages copies d hp hc
  have hlen1 : (buildStack pages copies d fl renders).length
      = (min (totalSheets pages copies d) 24).toNat := by
    simp only [buildStack, List.length_map, List.length_range, maxRenderedSheets]
  have hlen2 : (buildStackGrid ⟨pages, copies, d, fl, o⟩ renders).length
      = (min (totalSheets pages copies d) 100).toNat := by
    simp only [buildStackGrid, renderCountGrid, List.length_map, List.length_range,
      maxRenderedSheetsGrid]
  have hcast1 : ((buildStack pages copies d fl renders).length : Int)
      = min (totalSheets pages copies d) 24 := by
    rw [hlen1]
    omega
  have hcast2 : ((buildStackGrid ⟨pages, copies, d, fl, o⟩ renders).length : Int)
      = min (totalSheets pages copies d) 100 := by
    rw [hlen2]
    omega
  refine ⟨hcast1, hcast2, ?_, ?_, ?_, ?_, ?_, ?_⟩
  · simp only [hiddenSheets, renderedSheets]
    omega
  · simp only [hiddenSheets, renderedSheets]
    omega
  · simp only [hcast1, hiddenSheets, renderedSheets]
    omega
  · simp only [hcast2, hiddenSheets, renderedSheets]
    omega
  · rw [hlen1]
    omega
  · rw [hlen2]
    omega

/-- Witness for C4 at pageCount 60, copies 4, duplex: 120 total sheets,
exceeding both caps. -/
theorem claim_c4_witness :
    ((1 : Int) ≤ 60 ∧ (1 : Int) ≤ 4)
    ∧ (((buildStack 60 4 DuplexMode.duplex FlipMode.long []).length : Int)
        = min (totalSheets 60 4 DuplexMode.duplex) 24
    ∧ ((buildStackGrid ⟨60, 4, DuplexMode.duplex, FlipMode.long,
          OrientationMode.portrait⟩ []).length : Int)
        = min (totalSheets 60 4 DuplexMode.duplex) 100
    ∧ hiddenSheets 60 4 DuplexMode.duplex 24
        = max (totalSheets 60 4 DuplexMode.duplex - 24) 0
    ∧ hiddenSheets 60 4 DuplexMode.duplex 100
        = max (totalSheets 60 4 DuplexMode.duplex - 100) 0
    ∧ ((buildStack 60 4 DuplexMode.duplex FlipMode.long []).length : Int)
        + hiddenSheets 60 4 DuplexMode.duplex 24 = totalSheets 60 4 DuplexMode.duplex
    ∧ ((buildStackGrid ⟨60, 4, DuplexMode.duplex, FlipMode.long,
          OrientationMode.portrait⟩ []).length : Int)
        + hiddenSheets 60 4 DuplexMode.duplex 100 = totalSheets 60 4 DuplexMode.duplex
    ∧ (buildStack 60 4 DuplexMode.duplex FlipMode.long []).length ≤ 24
    ∧ (buildStackGrid ⟨60, 4, DuplexMode.duplex, FlipMode.long,
          OrientationMode.portrait⟩ []).length ≤ 100) :=
  ⟨⟨by decide, by decide⟩,
   claim_c4_render_cap 60 4 DuplexMode.duplex FlipMode.long OrientationMode.portrait []
     (by decide) (by decide)⟩

/-- C5: in the orientation-aware variant, for every source aspect ratio the
landscape orientation complements the selected flip edge, the back-face
rotation with orientation landscape and flip long uses the short-edge flip
value of 180 degrees, and backTextureRotation decomposes as the effective
flip rotation plus the orientation rotation, which is 0 when isLandscape
matches isSourceLandscape and 90 degrees otherwise. -/
theorem claim_c5_flip_complement (aspect : Rat) (f : FlipMode) :
    effectiveFlip OrientationMode.landscape FlipMode.long = FlipMode.short
    ∧ effectiveFlip OrientationMode.landscape FlipMode.short = FlipMode.long
    ∧ effectiveFlip OrientationMode.portrait f = f
    ∧ backRotationDeg OrientationMode.landscape FlipMode.long (isSourceLandscape aspect)
        = 180 + orientationRotationDeg OrientationMode.landscape (isSourceLandscape aspect)
    ∧ backRotationDeg OrientationMode.landscape f (isSourceLandscape aspect)
        = (if effectiveFlip OrientationMode.landscape f = FlipMode.short then 180 else 0)
          + (if isLandscape OrientationMode.landscape = isSourceLandscape aspect
             then 0 else 90)
    ∧ orientationRotationDeg OrientationMode.landscape (isSourceLandscape aspect)
        = (if isSourceLandscape aspect then 0 else 90) := by
  refine ⟨rfl, rfl, ?_, ?_, rfl, ?_⟩
  · simp [effectiveFlip, isLandscape]
  · simp [backRotationDeg, effectiveFlip, isLandscape]
  · cases hb : isSourceLandscape aspect <;> simp [orientationRotationDeg, isLandscape, hb]

/-- C6 counterexample: the derived quantities are not computed from clamped
inputs.  At pageCount 0 the code yields sheetsPerCopy 0 in duplex mode while
the clamped value would be 1; totalSheets and totalSides differ likewise. -/
theorem claim_c6_counterexample :
    sheetsPerCopy 0 DuplexMode.duplex ≠ sheetsPerCopy (max 0 1) DuplexMode.duplex
    ∧ totalSheets 0 3 DuplexMode.duplex ≠ totalSheets (max 0 1) (max 3 1) DuplexMode.duplex
    ∧ totalSides 5 0 ≠ totalSides (max 5 1) (max 0 1) := by
  decide

/-- C6 amended: the layout computation is total over all integer inputs
(every derived quantity and both placement builders are defined, with the
placement count given by the clamped-to-zero minimum), the pageCount used
by the blank test of buildStack is clamped to at least 1, and the derived
quantities agree with their values at clamped inputs only when the inputs
already satisfy the data-model bounds. -/
theorem claim_c6_amended (pages copies : Int) (d : DuplexMode) (fl : FlipMode)
    (o : OrientationMode) (renders : List PageRender) (i : Int) :
    buildPageCount pages = max pages 1
    ∧ 1 ≤ buildPageCount pages
    ∧ (buildStack pages copies d fl renders).length
        = (min (totalSheets pages copies d) 24).toNat
    ∧ (buildStackGrid ⟨pages, copies, d, fl, o⟩ renders).length
        = (min (totalSheets pages copies d) 100).toNat
    ∧ frontIndexOf pages d i
        = (if frontPageOf pages d i < max pages 1 then some (frontPageOf pages d i) else none)
    ∧ sheetsPerCopy pages d
        = (if isDuplex d then (pages + 1) / 2 else pages)
    ∧ totalSheets pages copies d = sheetsPerCopy pages d * copies
    ∧ totalSides pages copies = pages * copies := by
  refine ⟨rfl, by simp [buildPageCount], ?_, ?_, rfl, rfl, rfl, rfl⟩
  · simp only [buildStack, List.length_map, List.length_range, maxRenderedSheets]
  · simp only [buildStackGrid, renderCountGrid, List.length_map, List.length_range,
      maxRenderedSheetsGrid]

/-- Concrete component state with one loaded page image, used to exhibit
the loadFile rejection behaviour. -/
def sampleLoadedState : AppState :=
  { file := none
  , isLoading := false
  , loadError := none
  , maxPageCount := some 3
  , pageRenders := [{ url := "page-1", width := 100, height := 200 }]
  , pages := 3
  , copies := 2
  , duplex := DuplexMode.duplex
  , flip := FlipMode.long
  , orientation := OrientationMode.portrait }

/-- C7 counterexample: loading a text/plain file is rejected with the
unsupported-format message, yet the page-image sequence does change: it is
cleared at the start of loadFile before the MIME check runs. -/
theorem claim_c7_counterexample :
    (loadFile (PdfOutcome.err "boom") (ImageOutcome.err "boom") sampleLoadedState
        { name := "notes.txt", type := "text/plain" }).pageRenders
      ≠ sampleLoadedState.pageRenders
    ∧ (loadFile (PdfOutcome.err "boom") (ImageOutcome.err "boom") sampleLoadedState
        { name := "notes.txt", type := "text/plain" }).loadError
      = some "Unsupported file format." := by
  decide

/-- C7 amended: a file whose MIME type is neither application/pdf nor
image/* is rejected with the unsupported-format error; the print settings
and the detected page count are unchanged, but the page-image sequence is
cleared to empty by the unconditional reset at the start of loadFile, and
the file reference is replaced by the rejected file. -/
theorem claim_c7_amended (pdfOut : PdfOutcome) (imgOut : ImageOutcome)
    (s : AppState) (f : FileDesc)
    (h1 : f.type ≠ "application/pdf")
    (h2 : strStarts f.type "image/" = false) :
    (loadFile pdfOut imgOut s f).loadError = some "Unsupported file format."
    ∧ (loadFile pdfOut imgOut s f).pages = s.pages
    ∧ (loadFile pdfOut imgOut s f).copies = s.copies
    ∧ (loadFile pdfOut imgOut s f).duplex = s.duplex
    ∧ (loadFile pdfOut imgOut s f).flip = s.flip
    ∧ (loadFile pdfOut imgOut s f).orientation = s.orientation
    ∧ (loadFile pdfOut imgOut s f).maxPageCount = s.maxPageCount
    ∧ (loadFile pdfOut imgOut s f).pageRenders = []
    ∧ (loadFile pdfOut imgOut s f).file = some f
    ∧ (loadFile pdfOut imgOut s f).isLoading = false := by
  simp [loadFile, h1, h2]

/-- Witness for C7 amended at the concrete text/plain rejection. -/
theorem claim_c7_witness :
    (({ name := "notes.txt", type := "text/plain" } : FileDesc).type ≠ "application/pdf"
      ∧ strStarts ({ name := "notes.txt", type := "text/plain" } : FileDesc).type "image/"
          = false)
    ∧ ((loadFile (PdfOutcome.err "boom") (ImageOutcome.err "boom") sampleLoadedState
          { name := "notes.txt", type := "text/plain" }).loadError
        = some "Unsupported file format."
    ∧ (loadFile (PdfOutcome.err "boom") (ImageOutcome.err "boom") sampleLoadedState
          { name := "notes.txt", type := "text/plain" }).pages = sampleLoadedState.pages
    ∧ (loadFile (PdfOutcome.err "boom") (ImageOutcome.err "boom") sampleLoadedState
          { name := "notes.txt", type := "text/plain" }).copies = sampleLoadedState.copies
    ∧ (loadFile (PdfOutcome.err "boom") (ImageOutcome.err "boom") sampleLoadedState
          { name := "notes.txt", type := "text/plain" }).duplex = sampleLoadedState.duplex
    ∧ (loadFile (PdfOutcome.err "boom") (ImageOutcome.err "boom") sampleLoadedState
          { name := "notes.txt", type := "text/plain" }).flip = sampleLoadedState.flip
    ∧ (loadFile (PdfOutcome.err "boom") (ImageOutcome.err "boom") sampleLoadedState
          { name := "notes.txt", type := "text/plain" }).orientation
        = sampleLoadedState.orientation
    ∧ (loadFile (PdfOutcome.err "boom") (ImageOutcome.err "boom") sampleLoadedState
          { name := "notes.txt", type := "text/plain" }).maxPageCount
        = sampleLoadedState.maxPageCount
    ∧ (loadFile (PdfOutcome.err "boom") (ImageOutcome.err "boom") sampleLoadedState
          { name := "notes.txt", type := "text/plain" }).pageRenders = []
    ∧ (loadFile (PdfOutcome.err "boom") (ImageOutcome.err "boom") sampleLoadedState
          { name := "notes.txt", type := "text/plain" }).file
        = some { name := "notes.txt", type := "text/plain" }
    ∧ (loadFile (PdfOutcome.err "boom") (ImageOutcome.err "boom") sampleLoadedState
          { name := "notes.txt", type := "text/plain" }).isLoading = false) :=
  ⟨⟨by decide, by decide⟩,
   claim_c7_amended (PdfOutcome.err "boom") (ImageOutcome.err "boom") sampleLoadedState
     { name := "notes.txt", type := "text/plain" } (by decide) (by decide)⟩

/-- C10: in simplex mode the flip setting has no effect: both variants
build identical placement lists for flip long and flip short, the back
index of every sheet is null so every back face is blank, and the
flip-derived rotation is absorbed by the null back map. -/
theorem claim_c10_simplex_flip (pages copies : Int) (o : OrientationMode)
    (renders : List PageRender) (i : Int) (rot : Rat) :
    buildStack pages copies DuplexMode.simplex FlipMode.long renders
      = buildStack pages copies DuplexMode.simplex FlipMode.short renders
    ∧ buildStackGrid ⟨pages, copies, DuplexMode.simplex, FlipMode.long, o⟩ renders
      = buildStackGrid ⟨pages, copies, DuplexMode.simplex, FlipMode.short, o⟩ renders
    ∧ backIndexOf pages DuplexMode.simplex i = none
    ∧ (createPageMaterial (urlAt renders (backIndexOf pages DuplexMode.simplex i)) rot).map
        = none :=
  ⟨rfl, rfl, rfl, rfl⟩

/-- Resource invariant: the allocation log splits into the dispose log
followed by the still-live disposable array, and allocations are the
consecutive identifiers below the freshness counter. -/
def resInv (st : ResState) : Prop :=
  st.allocLog = st.disposedLog ++ st.live ∧ st.allocLog = List.range st.next

/-- Preservation of the resource invariant by one allocation. -/
theorem resInv_allocOne (st : ResState) (h : resInv st) : resInv (allocOne st) := by
  obtain ⟨h1, h2⟩ := h
  constructor
  · simp [allocOne, h1]
  · simp [allocOne, h2, List.range_succ]

/-- Preservation of the resource invariant by disposeStack. -/
theorem resInv_disposeStackR (st : ResState) (h : resInv st) :
    resInv (disposeStackR st) := by
  obtain ⟨h1, h2⟩ := h
  exact ⟨by simp [disposeStackR, h1], by simp [disposeStackR, h2]⟩

/-- Preservation of the resource invariant by repeated allocation. -/
theorem resInv_allocMany (n : Nat) : ∀ st : ResState, resInv st → resInv (allocMany n st) := by
  induction n with
  | zero => intro st h; exact h
  | succ k ih => intro st h; exact ih (allocOne st) (resInv_allocOne st h)

/-- Repeated allocation never disposes anything. -/
theorem allocMany_disposedLog (n : Nat) :
    ∀ st : ResState, (allocMany n st).disposedLog = st.disposedLog := by
  induction n with
  | zero => intro st; rfl
  | succ k ih =>
      intro st
      calc (allocMany (k + 1) st).disposedLog
          = (allocMany k (allocOne st)).disposedLog := rfl
        _ = (allocOne st).disposedLog := ih (allocOne st)
        _ = st.disposedLog := rfl

/-- Preservation of the resource invariant by one rebuild. -/
theorem resInv_buildStackR (k : Nat) (st : ResState) (h : resInv st) :
    resInv (buildStackR k st) :=
  resInv_allocMany k (disposeStackR st) (resInv_disposeStackR st h)

/-- Preservation of the resource invariant by a rebuild sequence. -/
theorem resInv_runRebuilds (ks : List Nat) :
    ∀ st : ResState, resInv st → resInv (runRebuilds ks st) := by
  induction ks with
  | nil => intro st h; exact h
  | cons k ks ih => intro st h; exact ih (buildStackR k st) (resInv_buildStackR k st h)

/-- Initial resource state satisfies the invariant. -/
theorem resInv_initR : resInv initR := ⟨rfl, rfl⟩

/-- C8: after any sequence of rebuilds followed by teardown, no resource
stays live, the dispose log equals the allocation log (with distinct
identifiers, so every allocated resource is released exactly once), and
one further rebuild disposes exactly the previously live resources before
its allocations touch nothing in the dispose log. -/
theorem claim_c8_resource_lifecycle (ks : List Nat) (k : Nat) :
    (teardownR (runRebuilds ks initR)).live = []
    ∧ (teardownR (runRebuilds ks initR)).disposedLog
        = (teardownR (runRebuilds ks initR)).allocLog
    ∧ (teardownR (runRebuilds ks initR)).allocLog.Nodup
    ∧ (buildStackR k (runRebuilds ks initR)).disposedLog
        = (runRebuilds ks initR).disposedLog ++ (runRebuilds ks initR).live := by
  obtain ⟨h1, h2⟩ := resInv_runRebuilds ks initR resInv_initR
  refine ⟨rfl, ?_, ?_, ?_⟩
  · exact h1.symm
  · show (runRebuilds ks initR).allocLog.Nodup
    rw [h2]
    exact List.nodup_range _
  · show (allocMany k (disposeStackR (runRebuilds ks initR))).disposedLog
        = (runRebuilds ks initR).disposedLog ++ (runRebuilds ks initR).live
    rw [allocMany_disposedLog]
    rfl

/-- Positivity of the grid column count for every render count. -/
theorem gridColumns_pos (rc : Int) : 0 < gridColumns rc := by
  simp only [gridColumns]
  omega

/-- C9: in the grid variant the column count is min(10, max(1, renderCount)),
the row count is the ceiling of renderCount over columns, sheet n sits in
column n mod columns and row floor(n / columns) through its built x and z
positions, the x positions are symmetric about the origin, every sheet is
tilted backward at the fixed pitch of 18 degrees, and each sheet carries
the 1-based numeric label n + 1. -/
theorem claim_c9_grid_layout (pages copies : Int) (d : DuplexMode) (fl : FlipMode)
    (o : OrientationMode) (renders : List PageRender) (n : Nat) (c : Int) (sx : Rat)
    (hp : 1 ≤ pages) (hc : 1 ≤ copies)
    (hn : n < (buildStackGrid ⟨pages, copies, d, fl, o⟩ renders).length)
    (_hc0 : 0 ≤ c) (_hcc : c < gridColumns (renderCountGrid pages copies d)) :
    1 ≤ renderCountGrid pages copies d
    ∧ gridColumns (renderCountGrid pages copies d)
        = min 10 (max 1 (renderCountGrid pages copies d))
    ∧ gridRows (renderCountGrid pages copies d)
        = Int.ceil ((renderCountGrid pages copies d : Rat)
            / (gridColumns (renderCountGrid pages copies d) : Rat))
    ∧ gridCol (n : Int) (gridColumns (renderCountGrid pages copies d))
        = (n : Int) % gridColumns (renderCountGrid pages copies d)
    ∧ gridRow (n : Int) (gridColumns (renderCountGrid pages copies d))
        = Int.floor (((n : Int) : Rat) / (gridColumns (renderCountGrid pages copies d) : Rat))
    ∧ ((buildStackGrid ⟨pages, copies, d, fl, o⟩ renders).get ⟨n, hn⟩).posX
        = gridX (spacingXGrid o renders) (gridColumns (renderCountGrid pages copies d))
            (gridCol (n : Int) (gridColumns (renderCountGrid pages copies d)))
    ∧ ((buildStackGrid ⟨pages, copies, d, fl, o⟩ renders).get ⟨n, hn⟩).posZ
        = gridZ spacingZGrid (gridRows (renderCountGrid pages copies d))
            (gridRow (n : Int) (gridColumns (renderCountGrid pages copies d)))
    ∧ ((buildStackGrid ⟨pages, copies, d, fl, o⟩ renders).get ⟨n, hn⟩).tiltDeg = -18
    ∧ ((buildStackGrid ⟨pages, copies, d, fl, o⟩ renders).get ⟨n, hn⟩).label
        = toString ((n : Int) + 1)
    ∧ gridX sx (gridColumns (renderCountGrid pages copies d)) c
        + gridX sx (gridColumns (renderCountGrid pages copies d))
            (gridColumns (renderCountGrid pages copies d) - 1 - c) = 0 := by
  have hts := totalSheets_pos pages copies d hp hc
  have hcols := gridColumns_pos (renderCountGrid pages copies d)
  refine ⟨?_, rfl, ?_, ?_, ?_, ?_, ?_, ?_, ?_, ?_⟩
  · simp only [renderCountGrid, maxRenderedSheetsGrid]
    omega
  · exact ediv_formula_eq_ceil _ _ hcols
  · exact Int.tmod_eq_emod (Int.natCast_nonneg n) (le_of_lt hcols)
  · exact ediv_eq_floor _ _ hcols
  · simp only [buildStackGrid, List.get_eq_getElem, List.getElem_map, List.getElem_range]
  · simp only [buildStackGrid, List.get_eq_getElem, List.getElem_map, List.getElem_range]
  · simp only [buildStackGrid, List.get_eq_getElem, List.getElem_map, List.getElem_range]
  · simp only [buildStackGrid, List.get_eq_getElem, List.getElem_map, List.getElem_range]
  · simp only [gridX]
    push_cast
    ring

/-- Witness for C9 at pageCount 8, copies 2, duplex: 8 rendered sheets,
checking sheet 5 and column 3. -/
theorem claim_c9_witness :
    ((1 : Int) ≤ 8 ∧ (1 : Int) ≤ 2
      ∧ 5 < (buildStackGrid ⟨8, 2, DuplexMode.duplex, FlipMode.long,
              OrientationMode.portrait⟩ []).length
      ∧ (0 : Int) ≤ 3 ∧ (3 : Int) < gridColumns (renderCountGrid 8 2 DuplexMode.duplex))
    ∧ (1 ≤ renderCountGrid 8 2 DuplexMode.duplex
    ∧ gridColumns (renderCountGrid 8 2 DuplexMode.duplex)
        = min 10 (max 1 (renderCountGrid 8 2 DuplexMode.duplex))
    ∧ gridRows (renderCountGrid 8 2 DuplexMode.duplex)
        = Int.ceil ((renderCountGrid 8 2 DuplexMode.duplex : Rat)
            / (gridColumns (renderCountGrid 8 2 DuplexMode.duplex) : Rat))
    ∧ gridCol ((5 : Nat) : Int) (gridColumns (renderCountGrid 8 2 DuplexMode.duplex))
        = ((5 : Nat) : Int) % gridColumns (renderCountGrid 8 2 DuplexMode.duplex)
    ∧ gridRow ((5 : Nat) : Int) (gridColumns (renderCountGrid 8 2 DuplexMode.duplex))
        = Int.floor ((((5 : Nat) : Int) : Rat)
            / (gridColumns (renderCountGrid 8 2 DuplexMode.duplex) : Rat))
    ∧ ((buildStackGrid ⟨8, 2, DuplexMode.duplex, FlipMode.long,
          OrientationMode.portrait⟩ []).get ⟨5, by decide⟩).posX
        = gridX (spacingXGrid OrientationMode.portrait [])
            (gridColumns (renderCountGrid 8 2 DuplexMode.duplex))
            (gridCol ((5 : Nat) : Int) (gridColumns (renderCountGrid 8 2 DuplexMode.duplex)))
    ∧ ((buildStackGrid ⟨8, 2, DuplexMode.duplex, FlipMode.long,
          OrientationMode.portrait⟩ []).get ⟨5, by decide⟩).posZ
        = gridZ spacingZGrid (gridRows (renderCountGrid 8 2 DuplexMode.duplex))
            (gridRow ((5 : Nat) : Int) (gridColumns (renderCountGrid 8 2 DuplexMode.duplex)))
    ∧ ((buildStackGrid ⟨8, 2, DuplexMode.duplex, FlipMode.long,
          OrientationMode.portrait⟩ []).get ⟨5, by decide⟩).tiltDeg = -18
    ∧ ((buildStackGrid ⟨8, 2, DuplexMode.duplex, FlipMode.long,
          OrientationMode.portrait⟩ []).get ⟨5, by decide⟩).label
        = toString (((5 : Nat) : Int) + 1)
    ∧ gridX 2 (gridColumns (renderCountGrid 8 2 DuplexMode.duplex)) 3
        + gridX 2 (gridColumns (renderCountGrid 8 2 DuplexMode.duplex))
            (gridColumns (renderCountGrid 8 2 DuplexMode.duplex) - 1 - 3) = 0) :=
  ⟨⟨by decide, by decide, by decide, by decide, by decide⟩,
   claim_c9_grid_layout 8 2 DuplexMode.duplex FlipMode.long OrientationMode.portrait [] 5 3 2
     (by decide) (by decide) (by decide) (by decide) (by decide)⟩
